import Mathlib

/-!
Verification of the attestation engine of the OpenStack auth plugin.

The attestation engine (Attestor with its checks and the replay counter)
is embedded below; its data model follows §3 of the specification and
the plugin test-suite, and the backend client cache follows
`src/plugin/backend.go`.
-/

namespace OpenStackAuth

/-- Modelled from the spec: one address entry of an `addressGroups` group,
carrying the textual address and its IP version (§3, §9). -/
structure AddressEntry where
  addr : String
  ipVersion : Nat
deriving Repr, DecidableEq

/-- Modelled from the spec: the Instance record supplied by the compute
provider per attestation attempt (§3). `created` is an integer timestamp. -/
structure Instance where
  id : String
  status : String
  accessIPv4 : String
  accessIPv6 : String
  addressGroups : List (String × List AddressEntry)
  metadata : List (String × String)
  tenantID : String
  userID : String
  created : Int
deriving Repr

/-- Modelled from the spec: the administrator-defined Role policy (§3).
`additionalAcceptedPrefixes` are the role-configured extra trusted CIDR
ranges consumed by the address matcher (§4.2, §4.5, §6); durations are
integer numbers of time units. -/
structure Role where
  name : String
  policies : List String
  ttl : Int
  maxTTL : Int
  period : Int
  metadataKey : String
  tenantID : String
  authPeriod : Int
  authLimit : Nat
  additionalAcceptedPrefixes : List String
deriving Repr

/-- Modelled from the spec: the distinct error kinds of §7. -/
inductive AttestError where
  | metadataMismatch
  | invalidStatus
  | addressMismatch
  | tenantMismatch
  | ownerMismatch
  | tooOld
  | authLimitExceeded
deriving Repr, DecidableEq

instance {ε γ : Type} [DecidableEq ε] [DecidableEq γ] : DecidableEq (Except ε γ) :=
  fun a b =>
    match a, b with
    | .ok x, .ok y =>
      if h : x = y then .isTrue (by rw [h]) else .isFalse (by simp [h])
    | .error x, .error y =>
      if h : x = y then .isTrue (by rw [h]) else .isFalse (by simp [h])
    | .ok _, .error _ => .isFalse (by simp)
    | .error _, .ok _ => .isFalse (by simp)

/-! ### Textual IP addresses and CIDR networks (§4.2) -/

/-- Split a character sequence on a single separator character; `acc`
holds the characters of the current piece in reverse. -/
def splitOnChar (sep : Char) : List Char → List Char → List (List Char)
  | [], acc => [acc.reverse]
  | c :: cs, acc =>
    if c = sep then acc.reverse :: splitOnChar sep cs []
    else splitOnChar sep cs (c :: acc)

/-- Split a character sequence on the two-character separator "::",
scanning left to right; `acc` holds the current piece in reverse. -/
def splitOnDoubleColon : List Char → List Char → List (List Char)
  | [], acc => [acc.reverse]
  | [c], acc => [(c :: acc).reverse]
  | c1 :: c2 :: cs, acc =>
    if c1 = ':' ∧ c2 = ':' then acc.reverse :: splitOnDoubleColon cs []
    else splitOnDoubleColon (c2 :: cs) (c1 :: acc)

/-- Value of one decimal digit. -/
def digitVal (c : Char) : Option Nat :=
  if '0' ≤ c ∧ c ≤ '9' then some (c.toNat - '0'.toNat) else none

/-- Parse a non-empty run of decimal digits. -/
def parseDecNat (cs : List Char) : Option Nat :=
  if cs.isEmpty then none
  else (cs.mapM digitVal).map (List.foldl (fun a d => a * 10 + d) 0)

/-- Modelled from the spec: parse one decimal component of a dotted-quad
IPv4 address (0–255). -/
def parseDecOctet (cs : List Char) : Option Nat :=
  match parseDecNat cs with
  | some n => if cs.length ≤ 3 ∧ n ≤ 255 then some n else none
  | none => none

/-- Modelled from the spec: parse a textual IPv4 address into its 32-bit
numeric value. -/
def parseIPv4Chars (cs : List Char) : Option Nat :=
  match (splitOnChar '.' cs []).mapM parseDecOctet with
  | some [a, b, c, d] => some (((a * 256 + b) * 256 + c) * 256 + d)
  | _ => none

/-- Value of one hexadecimal digit. -/
def hexVal (c : Char) : Option Nat :=
  if '0' ≤ c ∧ c ≤ '9' then some (c.toNat - '0'.toNat)
  else if 'a' ≤ c ∧ c ≤ 'f' then some (c.toNat - 'a'.toNat + 10)
  else if 'A' ≤ c ∧ c ≤ 'F' then some (c.toNat - 'A'.toNat + 10)
  else none

/-- Modelled from the spec: parse one 16-bit group of a textual IPv6
address (1–4 hexadecimal digits). -/
def parseHexGroup (cs : List Char) : Option Nat :=
  if 1 ≤ cs.length ∧ cs.length ≤ 4 then
    (cs.mapM hexVal).map (List.foldl (fun acc d => acc * 16 + d) 0)
  else none

/-- Groups of a colon-separated run of an IPv6 address; the empty run has
no groups. -/
def parseGroupRun (cs : List Char) : Option (List Nat) :=
  if cs.isEmpty then some [] else (splitOnChar ':' cs []).mapM parseHexGroup

/-- Combine 16-bit groups into one numeric value. -/
def combineGroups (gs : List Nat) : Nat :=
  gs.foldl (fun acc g => acc * 65536 + g) 0

/-- Modelled from the spec: parse a textual IPv6 address (hexadecimal
groups with at most one `::` compression) into its 128-bit value. -/
def parseIPv6Chars (cs : List Char) : Option Nat :=
  match splitOnDoubleColon cs [] with
  | [whole] =>
    match parseGroupRun whole with
    | some gs => if gs.length = 8 then some (combineGroups gs) else none
    | none => none
  | [l, r] =>
    match parseGroupRun l, parseGroupRun r with
    | some gl, some gr =>
      if gl.length + gr.length ≤ 7 then
        some (combineGroups (gl ++ List.replicate (8 - gl.length - gr.length) 0 ++ gr))
      else none
    | _, _ => none
  | _ => none

/-- Modelled from the spec: parse a textual IPv4 or IPv6 address, returning
its bit width (32 or 128) and numeric value (§4.2, §6). -/
def parseIPChars (cs : List Char) : Option (Nat × Nat) :=
  match parseIPv4Chars cs with
  | some v => some (32, v)
  | none =>
    match parseIPv6Chars cs with
    | some v => some (128, v)
    | none => none

/-- Parse a textual IPv4 or IPv6 address given as a string. -/
def parseIP (s : String) : Option (Nat × Nat) :=
  parseIPChars s.data

/-- Modelled from the spec: a parsed CIDR network — address family bit
width, base address and prefix length (§4.2 step 2). -/
structure IPNet where
  bits : Nat
  base : Nat
  maskLen : Nat
deriving Repr, DecidableEq

/-- Modelled from the spec: parse a CIDR range `addr/len`, IPv4 or IPv6
(§4.2 step 2); anything that is not a well-formed CIDR range yields none. -/
def parseCIDR (s : String) : Option IPNet :=
  match splitOnChar '/' s.data [] with
  | [ip, len] =>
    match parseIPChars ip, parseDecNat len with
    | some (w, v), some l => if l ≤ w then some ⟨w, v, l⟩ else none
    | _, _ => none
  | _ => none

/-- Modelled from the spec: the standard network-containment test — the
address, bitwise-masked to the network's length, equals the network base
(§4.2 step 3); an address of the other family, or one that does not parse,
is not contained. -/
def ipInNet (a : String) (n : IPNet) : Bool :=
  match parseIP a with
  | some (w, v) =>
    w == n.bits && v >>> (w - n.maskLen) == n.base >>> (w - n.maskLen)
  | none => false

/-! ### Identity checks (§4.1) -/

/-- Modelled from the spec: the metadata check — fails with
`MetadataMismatch` unless the instance's metadata maps `key` to `name`;
absence of the key or any other value is a failure (§4.1). -/
def AttestMetadata (inst : Instance) (key name : String) : Except AttestError Unit :=
  if inst.metadata.lookup key = some name then .ok () else .error .metadataMismatch

/-- Modelled from the spec: the status check — fails with `InvalidStatus`
unless the instance status is exactly "ACTIVE" (§4.1). -/
def AttestStatus (inst : Instance) : Except AttestError Unit :=
  if inst.status = "ACTIVE" then .ok () else .error .invalidStatus

/-- Modelled from the spec: the tenant check — fails with `TenantMismatch`
unless the expected tenant is empty or equals the instance's (§4.1). -/
def AttestTenantID (inst : Instance) (tenantID : String) : Except AttestError Unit :=
  if tenantID = "" ∨ tenantID = inst.tenantID then .ok () else .error .tenantMismatch

/-- Modelled from the spec: the owner check — fails with `OwnerMismatch`
unless the expected user id is empty or equals the instance's (§4.1). -/
def AttestUserID (inst : Instance) (userID : String) : Except AttestError Unit :=
  if userID = "" ∨ userID = inst.userID then .ok () else .error .ownerMismatch

/-! ### Address matcher (§4.2) -/

/-- Modelled from the spec: the trusted address set — the non-empty
primary addresses together with every `addr` value across all entries of
all address groups (§4.2 step 1). -/
def trustedAddresses (inst : Instance) : List String :=
  (if inst.accessIPv4 = "" then [] else [inst.accessIPv4]) ++
  (if inst.accessIPv6 = "" then [] else [inst.accessIPv6]) ++
  (inst.addressGroups.map (fun g => g.2.map AddressEntry.addr)).flatten

/-- Modelled from the spec: one request address matches when it is an
exact member of the trusted address set or falls inside some network
parsed from the extra trusted ranges; an unparsable range never matches
(§4.2 step 3, §7). -/
def addrMatches (inst : Instance) (ranges : List String) (a : String) : Bool :=
  (trustedAddresses inst).contains a ||
    ranges.any (fun p =>
      match parseCIDR p with
      | some n => ipInNet a n
      | none => false)

/-- Modelled from the spec: the address matcher — succeeds when some
request address matches, otherwise fails with `AddressMismatch`
(§4.2 steps 3–4). -/
def AttestAddr (inst : Instance) (requestAddrs : List String) (ranges : List String) :
    Except AttestError Unit :=
  if requestAddrs.any (addrMatches inst ranges) then .ok ()
  else .error .addressMismatch

/-! ### Freshness check (§4.3) -/

/-- Modelled from the spec: the freshness check — computes
`age = now - instance.created` and succeeds returning the age iff the age
is strictly below the period; `age = period` or greater fails with
`TooOld` (§4.3). -/
def VerifyAuthPeriod (inst : Instance) (now period : Int) : Except AttestError Int :=
  if now - inst.created < period then .ok (now - inst.created) else .error .tooOld

/-! ### Replay counter (§4.4) -/

/-- Modelled from the spec: a persisted Auth Attempt Counter entry (§3). -/
structure AuthAttempt where
  count : Nat
  expiresAt : Int
deriving Repr, DecidableEq

/-- The persistent counter storage: one entry per instance id. -/
abbrev Store := List (String × AuthAttempt)

/-- Modelled from the spec: a fresh read of the persisted entry for an
instance id — an entry whose `expiresAt` is at or before now is treated as
absent (§3, §4.4). -/
def readAttempt (s : Store) (id : String) (now : Int) : Option AuthAttempt :=
  match List.lookup id s with
  | some a => if a.expiresAt ≤ now then none else some a
  | none => none

/-- Persist an entry for an instance id, replacing any previous one. -/
def writeAttempt (s : Store) (id : String) (a : AuthAttempt) : Store :=
  (id, a) :: (s : List (String × AuthAttempt)).filter (fun e => e.1 ≠ id)

/-- Modelled from the spec: the replay counter — increments the persisted
count by 1 (from 0 when no unexpired entry exists), persists the entry
with `expiresAt` set to the supplied deadline even on the error path, and
errors with `AuthLimitExceeded` iff the post-increment count exceeds the
limit (§4.4). Returns the new count, the updated storage and the error. -/
def VerifyAuthLimit (s : Store) (id : String) (limit : Nat) (now deadline : Int) :
    Nat × Store × Option AttestError :=
  let prev := match readAttempt s id now with
    | some a => a.count
    | none => 0
  let c := prev + 1
  let s' := writeAttempt s id ⟨c, deadline⟩
  (c, s', if limit < c then some .authLimitExceeded else none)

/-! ### Attestor orchestration (§4.5) -/

/-- Modelled from the spec: the composed attestation pass — metadata
check, status check, address match (with the role's extra trusted
ranges), tenant check, freshness check (with `role.period`), replay
counter (with `role.authLimit` and a deadline derived from
`role.authPeriod`), short-circuiting on the first failure; returns the
resulting storage and `none` exactly when every check passes (§4.5). -/
def Attest (s : Store) (inst : Instance) (role : Role) (requestAddrs : List String)
    (now : Int) : Store × Option AttestError :=
  match AttestMetadata inst role.metadataKey role.name with
  | .error e => (s, some e)
  | .ok _ =>
  match AttestStatus inst with
  | .error e => (s, some e)
  | .ok _ =>
  match AttestAddr inst requestAddrs role.additionalAcceptedPrefixes with
  | .error e => (s, some e)
  | .ok _ =>
  match AttestTenantID inst role.tenantID with
  | .error e => (s, some e)
  | .ok _ =>
  match VerifyAuthPeriod inst now role.period with
  | .error e => (s, some e)
  | .ok _ =>
    (VerifyAuthLimit s inst.id role.authLimit now (now + role.authPeriod)).2

/-! ### Backend client cache (`src/plugin/backend.go`) -/

/-- The backend state of `OpenStackAuthBackend`: the embedded framework
backend (left abstract) and the cached compute client. -/
structure OpenStackAuthBackend (α β : Type) where
  backend : β
  client : Option α
deriving Repr, DecidableEq

/-- `Close`: drop the cached client (`backend.go` lines 44–49). -/
def Close (b : OpenStackAuthBackend α β) : OpenStackAuthBackend α β :=
  { b with client := none }

/-- `getClient` (`backend.go` lines 51–139): return the cached client when
present; otherwise read the configuration and build a compute client —
collapsed into the fallible `build` step — and cache it on success. -/
def getClient (build : Except String α) (b : OpenStackAuthBackend α β) :
    OpenStackAuthBackend α β × Except String α :=
  match b.client with
  | some c => (b, .ok c)
  | none =>
    match build with
    | .ok c => ({ b with client := some c }, .ok c)
    | .error e => (b, .error e)

/-- `invalidateHandler` (`backend.go` lines 141–146): on key "config"
close the backend, otherwise do nothing. -/
def invalidateHandler (b : OpenStackAuthBackend α β) (key : String) :
    OpenStackAuthBackend α β :=
  if key = "config" then Close b else b

/-! ### Helper definitions for the verification -/

/-- The error component of a check result. -/
def errOf : Except AttestError γ → Option AttestError
  | .ok _ => none
  | .error e => some e

/-- The first failure in an ordered list of check outcomes. -/
def firstFailure : List (Option AttestError) → Option AttestError
  | [] => none
  | some e :: _ => some e
  | none :: rest => firstFailure rest

/-- All checks of the composed pass before the replay counter succeed. -/
def earlyChecksPass (inst : Instance) (role : Role) (addrs : List String) (now : Int) : Prop :=
  AttestMetadata inst role.metadataKey role.name = .ok ()
  ∧ AttestStatus inst = .ok ()
  ∧ AttestAddr inst addrs role.additionalAcceptedPrefixes = .ok ()
  ∧ AttestTenantID inst role.tenantID = .ok ()
  ∧ VerifyAuthPeriod inst now role.period = .ok (now - inst.created)

/-- Counter storage reached after `n` replay-counter calls for one id,
starting from the empty storage. -/
def limitStateAfter (id : String) (limit : Nat) (now deadline : Int) : Nat → Store
  | 0 => []
  | n + 1 => (VerifyAuthLimit (limitStateAfter id limit now deadline n) id limit now deadline).2.1

/-- A sample instance used to instantiate universally quantified results. -/
def inst0 : Instance :=
  { id := "test0", status := "ACTIVE", accessIPv4 := "192.168.1.1", accessIPv6 := "",
    addressGroups := [], metadata := [("vault-role", "test")],
    tenantID := "fcad67a6189847c4aecfa3c81a05783b",
    userID := "9349aff8be7545ac9d2f1d00999a23cd", created := 1000 }

/-- A sample role used to instantiate universally quantified results. -/
def role0 : Role :=
  { name := "test", policies := ["test"], ttl := 60, maxTTL := 120, period := 120,
    metadataKey := "vault-role", tenantID := "fcad67a6189847c4aecfa3c81a05783b",
    authPeriod := 120, authLimit := 2, additionalAcceptedPrefixes := [] }

/-! ### Theorems -/

/-- C3: the freshness check computes `age = now - instance.created`,
succeeds returning the age iff `age < period` strictly, fails with the
too-old error iff `age ≥ period`; in particular age exactly `period`
fails while age `period - 1` succeeds. -/
theorem verifyAuthPeriod_strict_boundary (inst : Instance) (now period : Int) :
    (VerifyAuthPeriod inst now period = .ok (now - inst.created)
      ↔ now - inst.created < period)
    ∧ (VerifyAuthPeriod inst now period = .error .tooOld
      ↔ period ≤ now - inst.created)
    ∧ (now - inst.created = period → VerifyAuthPeriod inst now period = .error .tooOld)
    ∧ (now - inst.created = period - 1 ∧ 0 < period →
        VerifyAuthPeriod inst now period = .ok (period - 1)) := by
  unfold VerifyAuthPeriod
  refine ⟨⟨fun he => ?_, fun hlt => by rw [if_pos hlt]⟩,
    ⟨fun he => ?_, fun hle => by rw [if_neg (by omega)]⟩,
    fun _ => by rw [if_neg (by omega)],
    fun h12 => by rw [if_pos (by omega), h12.1]⟩
  · by_contra hge
    rw [if_neg (by omega)] at he
    exact absurd he (by simp)
  · by_contra hlt
    rw [if_pos (by omega)] at he
    exact absurd he (by simp)

/-- C3 witness: at concrete inputs, age 120 against period 120 fails and
age 119 against period 120 succeeds. -/
theorem verifyAuthPeriod_strict_boundary_witness :
    VerifyAuthPeriod inst0 1120 120 = .error .tooOld
    ∧ VerifyAuthPeriod inst0 1119 120 = .ok 119 :=
  ⟨(verifyAuthPeriod_strict_boundary inst0 1120 120).2.2.1 (by decide),
   (verifyAuthPeriod_strict_boundary inst0 1119 120).2.2.2 (by decide)⟩

/-- C7: the tenant check succeeds iff the expected tenant id is empty or
equals the instance's tenant id, and the owner check succeeds iff the
expected user id is empty or equals the instance's user id. -/
theorem attestTenantID_userID_iff (inst : Instance) (tenantID userID : String) :
    (AttestTenantID inst tenantID = .ok ()
      ↔ tenantID = "" ∨ tenantID = inst.tenantID)
    ∧ (AttestTenantID inst tenantID = .error .tenantMismatch
      ↔ ¬(tenantID = "" ∨ tenantID = inst.tenantID))
    ∧ (AttestUserID inst userID = .ok ()
      ↔ userID = "" ∨ userID = inst.userID)
    ∧ (AttestUserID inst userID = .error .ownerMismatch
      ↔ ¬(userID = "" ∨ userID = inst.userID)) := by
  unfold AttestTenantID AttestUserID
  by_cases h1 : tenantID = "" ∨ tenantID = inst.tenantID
    <;> by_cases h2 : userID = "" ∨ userID = inst.userID
    <;> simp [h1, h2]

/-- C5: whenever the instance's metadata does not map the role's metadata
key to the role's name, the metadata check fails and the composed pass
fails with the metadata-mismatch error, for every storage, request
address list and clock. -/
theorem attest_metadata_mismatch (s : Store) (inst : Instance) (role : Role)
    (addrs : List String) (now : Int)
    (h : inst.metadata.lookup role.metadataKey ≠ some role.name) :
    AttestMetadata inst role.metadataKey role.name = .error .metadataMismatch
    ∧ Attest s inst role addrs now = (s, some .metadataMismatch) := by
  have hm : AttestMetadata inst role.metadataKey role.name = .error .metadataMismatch := by
    simp [AttestMetadata, h]
  exact ⟨hm, by simp [Attest, hm]⟩

/-- C5 witness: a concrete instance carrying the wrong metadata value is
rejected with the metadata-mismatch error. -/
theorem attest_metadata_mismatch_witness :
    Attest [] { inst0 with metadata := [("vault-role", "invalid")] } role0
      ["192.168.1.1"] 1000 = ([], some .metadataMismatch) :=
  (attest_metadata_mismatch [] { inst0 with metadata := [("vault-role", "invalid")] }
    role0 ["192.168.1.1"] 1000 (by decide)).2

/-- C10: the backend returns a cached client unchanged and without
consulting the configuration, a successful `getClient` leaves a non-nil
cached client, invalidation with key "config" resets exactly the cached
client to nil, and invalidation with any other key leaves the backend
state unchanged. -/
theorem backend_client_cache {α β : Type} (build build' : Except String α)
    (b : OpenStackAuthBackend α β) (key : String) (c : α) :
    (b.client = some c → getClient build b = (b, .ok c))
    ∧ (b.client = some c → getClient build b = getClient build' b)
    ∧ ((getClient build b).2 = .ok c → (getClient build b).1.client = some c)
    ∧ (invalidateHandler b "config" = { b with client := none })
    ∧ (key ≠ "config" → invalidateHandler b key = b) := by
  refine ⟨?_, ?_, ?_, ?_, ?_⟩
  · intro h
    simp [getClient, h]
  · intro h
    simp [getClient, h]
  · intro h
    cases hb : b.client with
    | some d =>
      simp [getClient, hb] at h ⊢
      exact h
    | none =>
      cases hbuild : build with
      | ok d => simp_all [getClient]
      | error e => simp_all [getClient]
  · rfl
  · intro h
    simp [invalidateHandler, h]

/-- C10 witness: a backend with a cached client returns it as-is for any
builder, and invalidation with a different key is a no-op. -/
theorem backend_client_cache_witness :
    getClient (Except.ok 3) (⟨(), some 7⟩ : OpenStackAuthBackend Nat Unit)
      = (⟨(), some 7⟩, .ok 7)
    ∧ invalidateHandler (⟨(), some 7⟩ : OpenStackAuthBackend Nat Unit) "roles" = ⟨(), some 7⟩ :=
  ⟨(backend_client_cache (Except.ok 3) (Except.error "x") ⟨(), some 7⟩ "roles" 7).1 rfl,
   (backend_client_cache (Except.ok 3) (Except.error "x") ⟨(), some 7⟩ "roles" 7).2.2.2.2
     (by decide)⟩

/-- An ok freshness result carries the age `now - instance.created`. -/
theorem verifyAuthPeriod_ok_eq {inst : Instance} {now period a : Int}
    (h : VerifyAuthPeriod inst now period = .ok a) : a = now - inst.created := by
  unfold VerifyAuthPeriod at h
  split at h <;> simp_all

/-- C1: the composed pass evaluates metadata check, status check, address
match, tenant check, freshness check and replay counter in that fixed
order, short-circuits on the first failure, returns nil iff every check
passes, and otherwise returns the first failing check's error
unmodified. -/
theorem attest_order_first_failure (s : Store) (inst : Instance) (role : Role)
    (addrs : List String) (now : Int) :
    (Attest s inst role addrs now).2
      = firstFailure
          [errOf (AttestMetadata inst role.metadataKey role.name),
           errOf (AttestStatus inst),
           errOf (AttestAddr inst addrs role.additionalAcceptedPrefixes),
           errOf (AttestTenantID inst role.tenantID),
           errOf (VerifyAuthPeriod inst now role.period),
           (VerifyAuthLimit s inst.id role.authLimit now (now + role.authPeriod)).2.2]
    ∧ ((Attest s inst role addrs now).2 = none
      ↔ errOf (AttestMetadata inst role.metadataKey role.name) = none
        ∧ errOf (AttestStatus inst) = none
        ∧ errOf (AttestAddr inst addrs role.additionalAcceptedPrefixes) = none
        ∧ errOf (AttestTenantID inst role.tenantID) = none
        ∧ errOf (VerifyAuthPeriod inst now role.period) = none
        ∧ (VerifyAuthLimit s inst.id role.authLimit now (now + role.authPeriod)).2.2
            = none) := by
  unfold Attest
  cases h1 : AttestMetadata inst role.metadataKey role.name with
  | error e => simp [errOf, firstFailure]
  | ok u =>
  cases h2 : AttestStatus inst with
  | error e => simp [errOf, firstFailure]
  | ok u =>
  cases h3 : AttestAddr inst addrs role.additionalAcceptedPrefixes with
  | error e => simp [errOf, firstFailure]
  | ok u =>
  cases h4 : AttestTenantID inst role.tenantID with
  | error e => simp [errOf, firstFailure]
  | ok u =>
  cases h5 : VerifyAuthPeriod inst now role.period with
  | error e => simp [errOf, firstFailure]
  | ok a =>
  cases h6 : (VerifyAuthLimit s inst.id role.authLimit now (now + role.authPeriod)).2.2 with
  | none => simp [errOf, firstFailure, h6]
  | some e => simp [errOf, firstFailure, h6]

/-- C6: a failure at any check before the replay counter leaves the
persisted counter storage unchanged; only a pass reaching the replay
counter persists the incremented entry (with the deadline derived from
the role's auth period). -/
theorem attest_counter_frame (s : Store) (inst : Instance) (role : Role)
    (addrs : List String) (now : Int) :
    (¬ earlyChecksPass inst role addrs now → (Attest s inst role addrs now).1 = s)
    ∧ (earlyChecksPass inst role addrs now →
        List.lookup inst.id (Attest s inst role addrs now).1
          = some ⟨(match readAttempt s inst.id now with
                   | some a => a.count
                   | none => 0) + 1,
                  now + role.authPeriod⟩) := by
  constructor
  · intro hne
    unfold Attest
    cases h1 : AttestMetadata inst role.metadataKey role.name with
    | error e => rfl
    | ok u =>
    cases h2 : AttestStatus inst with
    | error e => rfl
    | ok u =>
    cases h3 : AttestAddr inst addrs role.additionalAcceptedPrefixes with
    | error e => rfl
    | ok u =>
    cases h4 : AttestTenantID inst role.tenantID with
    | error e => rfl
    | ok u =>
    cases h5 : VerifyAuthPeriod inst now role.period with
    | error e => rfl
    | ok a =>
      exact absurd ⟨h1, h2, h3, h4, verifyAuthPeriod_ok_eq h5 ▸ h5⟩ hne
  · intro h
    obtain ⟨h1, h2, h3, h4, h5⟩ := h
    simp only [Attest, h1, h2, h3, h4, h5]
    simp [VerifyAuthLimit, writeAttempt, List.lookup]

/-- C6 witness: a status failure leaves a pre-existing counter entry
untouched, while a full pass persists count 1 with the derived deadline. -/
theorem attest_counter_frame_witness :
    (Attest [("test0", ⟨1, 2000⟩)] { inst0 with status := "ERROR" } role0
        ["192.168.1.1"] 1000).1 = [("test0", ⟨1, 2000⟩)]
    ∧ List.lookup "test0" (Attest [] inst0 role0 ["192.168.1.1"] 1000).1
        = some ⟨1, 1120⟩ :=
  ⟨(attest_counter_frame [("test0", ⟨1, 2000⟩)] { inst0 with status := "ERROR" }
      role0 ["192.168.1.1"] 1000).1 (by unfold earlyChecksPass; decide),
   (attest_counter_frame [] inst0 role0 ["192.168.1.1"] 1000).2
      (by unfold earlyChecksPass; decide)⟩

/-- Looking up the id of a freshly written entry finds that entry. -/
theorem lookup_writeAttempt (s : Store) (id : String) (a : AuthAttempt) :
    List.lookup id (writeAttempt s id a) = some a := by
  simp [writeAttempt, List.lookup]

/-- A freshly written entry that has not yet expired is visible to a
fresh read. -/
theorem readAttempt_writeAttempt (s : Store) (id : String) (a : AuthAttempt)
    (now : Int) (h : now < a.expiresAt) :
    readAttempt (writeAttempt s id a) id now = some a := by
  unfold readAttempt
  rw [lookup_writeAttempt]
  exact if_neg (not_le.mpr h)

/-- The components of one replay-counter call. -/
theorem verifyAuthLimit_components (t : Store) (id : String) (limit : Nat)
    (now deadline : Int) :
    VerifyAuthLimit t id limit now deadline
      = ((match readAttempt t id now with | some a => a.count | none => 0) + 1,
         writeAttempt t id
           ⟨(match readAttempt t id now with | some a => a.count | none => 0) + 1,
            deadline⟩,
         if limit < (match readAttempt t id now with | some a => a.count | none => 0) + 1
           then some AttestError.authLimitExceeded else none) := rfl

/-- After `n` replay-counter calls from the empty storage, a fresh read
within the window sees count `n` (absent when `n = 0`). -/
theorem limitStateAfter_read (id : String) (limit : Nat) (now deadline : Int)
    (h : now < deadline) (n : Nat) :
    readAttempt (limitStateAfter id limit now deadline n) id now
      = if n = 0 then none else some ⟨n, deadline⟩ := by
  induction n with
  | zero => rfl
  | succ k ih =>
    rw [if_neg (Nat.succ_ne_zero k)]
    show readAttempt (VerifyAuthLimit (limitStateAfter id limit now deadline k)
      id limit now deadline).2.1 id now = some ⟨k + 1, deadline⟩
    rw [verifyAuthLimit_components]
    show readAttempt (writeAttempt (limitStateAfter id limit now deadline k) id
      ⟨(match readAttempt (limitStateAfter id limit now deadline k) id now with
        | some a => a.count | none => 0) + 1, deadline⟩) id now = some ⟨k + 1, deadline⟩
    rw [readAttempt_writeAttempt _ _ _ _ h, ih]
    by_cases hk : k = 0 <;> simp [hk]

/-- C2: one replay-counter call increments the persisted count by 1
(from 0 when no unexpired entry exists), persists the entry with the
supplied deadline even on the error path, and errors iff the
post-increment count exceeds the limit; iterating from the empty storage
within the unexpired window, the n-th call returns count n and succeeds
iff n is at most the limit. -/
theorem verifyAuthLimit_replay_contract (s : Store) (id : String) (limit : Nat)
    (now deadline : Int) (n : Nat) (h : now < deadline) :
    (VerifyAuthLimit s id limit now deadline).1
      = (match readAttempt s id now with | some a => a.count | none => 0) + 1
    ∧ List.lookup id (VerifyAuthLimit s id limit now deadline).2.1
      = some ⟨(VerifyAuthLimit s id limit now deadline).1, deadline⟩
    ∧ ((VerifyAuthLimit s id limit now deadline).2.2 = some .authLimitExceeded
        ↔ limit < (VerifyAuthLimit s id limit now deadline).1)
    ∧ (VerifyAuthLimit (limitStateAfter id limit now deadline n) id limit now deadline).1
        = n + 1
    ∧ ((VerifyAuthLimit (limitStateAfter id limit now deadline n) id limit now deadline).2.2
        = none ↔ n + 1 ≤ limit) := by
  refine ⟨rfl, ?_, ?_, ?_, ?_⟩
  · rw [verifyAuthLimit_components]
    exact lookup_writeAttempt s id _
  · rw [verifyAuthLimit_components]
    by_cases hl : limit <
        (match readAttempt s id now with | some a => a.count | none => 0) + 1
      <;> simp [hl]
  · rw [verifyAuthLimit_components]
    show (match readAttempt (limitStateAfter id limit now deadline n) id now with
      | some a => a.count | none => 0) + 1 = n + 1
    rw [limitStateAfter_read id limit now deadline h n]
    by_cases hn : n = 0 <;> simp [hn]
  · rw [verifyAuthLimit_components]
    show (if limit <
        (match readAttempt (limitStateAfter id limit now deadline n) id now with
          | some a => a.count | none => 0) + 1
        then some AttestError.authLimitExceeded else none) = none ↔ n + 1 ≤ limit
    rw [limitStateAfter_read id limit now deadline h n]
    by_cases hn : n = 0 <;> by_cases hl : n + 1 ≤ limit
      <;> simp [hn, hl] <;> omega

/-- C2 witness: with limit 2, the first two calls return counts 1 and 2
with no error, and the third call fails. -/
theorem verifyAuthLimit_replay_contract_witness :
    (VerifyAuthLimit [] "i" 2 0 30).1 = 1
    ∧ (VerifyAuthLimit (limitStateAfter "i" 2 0 30 1) "i" 2 0 30).1 = 2
    ∧ (VerifyAuthLimit (limitStateAfter "i" 2 0 30 1) "i" 2 0 30).2.2 = none
    ∧ (VerifyAuthLimit (limitStateAfter "i" 2 0 30 2) "i" 2 0 30).2.2 ≠ none :=
  ⟨(verifyAuthLimit_replay_contract [] "i" 2 0 30 0 (by decide)).1,
   (verifyAuthLimit_replay_contract [] "i" 2 0 30 1 (by decide)).2.2.2.1,
   (verifyAuthLimit_replay_contract [] "i" 2 0 30 1 (by decide)).2.2.2.2.mpr (by decide),
   fun hc => absurd
     ((verifyAuthLimit_replay_contract [] "i" 2 0 30 2 (by decide)).2.2.2.2.mp hc)
     (by decide)⟩

/-- A trusted-range entry matches an address exactly when it parses as a
CIDR network containing that address. -/
theorem rangeMatch_iff (a p : String) :
    ((match parseCIDR p with | some n => ipInNet a n | none => false) = true)
      ↔ ∃ n, parseCIDR p = some n ∧ ipInNet a n = true := by
  cases h : parseCIDR p <;> simp [h]

/-- One request address matches exactly when it is a member of the
trusted address set or is contained in some parsed trusted range. -/
theorem addrMatches_iff (inst : Instance) (ranges : List String) (a : String) :
    addrMatches inst ranges a = true
      ↔ a ∈ trustedAddresses inst
        ∨ ∃ p ∈ ranges, ∃ n, parseCIDR p = some n ∧ ipInNet a n = true := by
  simp only [addrMatches, Bool.or_eq_true, List.contains, List.elem_iff,
    List.any_eq_true, rangeMatch_iff]

/-- Some request address matches exactly when the declarative match
condition of the address matcher holds. -/
theorem any_addrMatches_iff (inst : Instance) (requestAddrs ranges : List String) :
    requestAddrs.any (addrMatches inst ranges) = true
      ↔ ∃ a ∈ requestAddrs, a ∈ trustedAddresses inst
          ∨ ∃ p ∈ ranges, ∃ n, parseCIDR p = some n ∧ ipInNet a n = true := by
  rw [List.any_eq_true]
  exact exists_congr fun a => and_congr_right fun _ => addrMatches_iff inst ranges a

/-- C4: the address matcher succeeds iff some request address is an exact
member of the trusted address set (primary addresses excluding empties
plus all group addresses) or is contained in some network parsed from the
extra trusted ranges, and otherwise fails with the address-mismatch
error. -/
theorem attestAddr_match_characterization (inst : Instance)
    (requestAddrs ranges : List String) :
    (AttestAddr inst requestAddrs ranges = .ok ()
      ↔ ∃ a ∈ requestAddrs, a ∈ trustedAddresses inst
          ∨ ∃ p ∈ ranges, ∃ n, parseCIDR p = some n ∧ ipInNet a n = true)
    ∧ (AttestAddr inst requestAddrs ranges = .error .addressMismatch
      ↔ ¬∃ a ∈ requestAddrs, a ∈ trustedAddresses inst
          ∨ ∃ p ∈ ranges, ∃ n, parseCIDR p = some n ∧ ipInNet a n = true) := by
  have hAny := any_addrMatches_iff inst requestAddrs ranges
  unfold AttestAddr
  by_cases hc : requestAddrs.any (addrMatches inst ranges) = true
  · rw [if_pos hc]
    simp [hAny.mp hc]
  · rw [if_neg hc]
    exact ⟨⟨fun he => absurd he (by simp), fun hp => absurd (hAny.mpr hp) hc⟩,
           ⟨fun _ hp => hc (hAny.mpr hp), fun _ => rfl⟩⟩

/-- C8: an extra trusted-range entry that does not parse as a CIDR
network never matches; the address matcher's outcome with it present is
identical to the outcome with it removed. -/
theorem attestAddr_unparsable_neutral (inst : Instance) (addrs l₁ l₂ : List String)
    (p : String) (h : parseCIDR p = none) :
    AttestAddr inst addrs (l₁ ++ p :: l₂) = AttestAddr inst addrs (l₁ ++ l₂) := by
  have hm : addrMatches inst (l₁ ++ p :: l₂) = addrMatches inst (l₁ ++ l₂) := by
    funext a
    simp [addrMatches, List.any_append, List.any_cons, h]
  unfold AttestAddr
  rw [hm]

/-- C8 witness: the unparsable entry "2001:db8:99::1" (no CIDR length)
leaves the matcher's outcome unchanged. -/
theorem attestAddr_unparsable_neutral_witness :
    parseCIDR "2001:db8:99::1" = none
    ∧ AttestAddr inst0 ["192.168.1.1"] ["2001:db8:99::1"]
        = AttestAddr inst0 ["192.168.1.1"] [] :=
  ⟨by decide,
   attestAddr_unparsable_neutral inst0 ["192.168.1.1"] [] [] "2001:db8:99::1" (by decide)⟩

/-- C9: address matching is monotonic in trusted-range breadth — if the
matcher succeeds with ranges P and P is a subset of Q, it also succeeds
with Q. -/
theorem attestAddr_monotone (inst : Instance) (addrs P Q : List String)
    (hsub : ∀ p ∈ P, p ∈ Q) (hP : AttestAddr inst addrs P = .ok ()) :
    AttestAddr inst addrs Q = .ok () := by
  have h1 : addrs.any (addrMatches inst P) = true := by
    by_contra hc
    unfold AttestAddr at hP
    rw [if_neg hc] at hP
    exact absurd hP (by simp)
  obtain ⟨a, ha, hmatch⟩ := (any_addrMatches_iff inst addrs P).mp h1
  have h2 : addrs.any (addrMatches inst Q) = true := by
    rw [any_addrMatches_iff]
    refine ⟨a, ha, ?_⟩
    rcases hmatch with ht | ⟨p, hp, n, hpn, hin⟩
    · exact Or.inl ht
    · exact Or.inr ⟨p, hsub p hp, n, hpn, hin⟩
  unfold AttestAddr
  rw [if_pos h2]

/-- C9 witness: a request matching via the range "192.168.3.1/32" still
matches after the range list is widened with "192.168.99.0/24". -/
theorem attestAddr_monotone_witness :
    AttestAddr { inst0 with accessIPv4 := "192.168.1.2" } ["192.168.3.1"]
      ["192.168.3.1/32", "192.168.99.0/24"] = .ok () :=
  attestAddr_monotone { inst0 with accessIPv4 := "192.168.1.2" } ["192.168.3.1"]
    ["192.168.3.1/32"] ["192.168.3.1/32", "192.168.99.0/24"]
    (by decide) (by decide)

end OpenStackAuth
